import Mathlib

/-!
Verification of `scripts/crop_assets.py`, a utility that crops transparent
borders from a fixed list of PNG assets.

The core computation (lines 36-39 of the script) clamps a padded bounding
box to the image bounds.  Python integers are unbounded, so all pixel
coordinates are modelled as `Int`.  The image decoder and bounding-box
finder (Pillow's `Image.open`/`getbbox`) are external collaborators: a
decoded image is modelled by its dimensions together with the result of
`getbbox`, which is `none` exactly when every pixel is fully transparent.
File-system effects are modelled by returning explicit outcome values: a
`CropOutcome.cropped` value records the single file write `crop_transparent`
performs, and `CropOutcome.skippedTransparent` records the skip path, which
writes nothing.
-/

namespace CropAssets

/-- The crop rectangle: pixel offsets `(left, top, right, bottom)` into a 2D
image, as passed to `img.crop` on line 42 of the script. -/
structure Rect where
  left : Int
  top : Int
  right : Int
  bottom : Int
deriving DecidableEq, Repr

/-- Model of a decoded RGBA image: its dimensions (`img.size`, line 33) and
the result of the bounding-box finder (`img.getbbox()`, line 26).  `bbox` is
`none` exactly when the image is fully transparent; otherwise it is the
4-tuple `(bx0, by0, bx1, by1)` of the minimal rectangle enclosing all
non-transparent pixels. -/
structure Image where
  width : Int
  height : Int
  bbox : Option (Int × Int × Int × Int)
deriving DecidableEq, Repr

/-- Lines 36-39 of the script: apply padding to the bounding box, staying
within the image bounds.

    left = max(0, bbox[0] - padding)
    top = max(0, bbox[1] - padding)
    right = min(orig_w, bbox[2] + padding)
    bottom = min(orig_h, bbox[3] + padding)
-/
def cropRect (W H : Int) (bbox : Int × Int × Int × Int) (padding : Int) : Rect :=
  { left := max 0 (bbox.1 - padding)
    top := max 0 (bbox.2.1 - padding)
    right := min W (bbox.2.2.1 + padding)
    bottom := min H (bbox.2.2.2 + padding) }

/-- Outcome of one call to `crop_transparent`: either the early return on a
fully transparent image (lines 28-30), or a crop-and-save to `outputPath`
(lines 42-45). -/
inductive CropOutcome where
  | skippedTransparent
  | cropped (outputPath : String) (rect : Rect)
deriving DecidableEq, Repr

/-- The file write an outcome performs: `skippedTransparent` writes nothing;
`cropped` saves the image cropped to `rect` at `outputPath` (line 45). -/
def writeOf : CropOutcome → Option (String × Rect)
  | .skippedTransparent => none
  | .cropped p r => some (p, r)

/-- Lines 10-48 of the script, `crop_transparent(input_path, output_path=None,
padding=0)` applied to the decoded image `img`.  When `output_path` is `none`
it defaults to `input_path` (lines 19-20).  If `getbbox` returned `none` the
function reports a skip and returns without cropping or writing; otherwise it
crops to the padded rectangle and saves to the output path. -/
def crop_transparent (input_path : String) (output_path : Option String)
    (padding : Int) (img : Image) : CropOutcome :=
  let out := output_path.getD input_path
  match img.bbox with
  | none => .skippedTransparent
  | some bbox => .cropped out (cropRect img.width img.height bbox padding)

/-- Line 52: the hardcoded assets directory. -/
def assets_dir : String := "/Users/cayden0207/Desktop/Cursor/Eliza town/assets/ui/stardew"

/-- Lines 55-60: the fixed list of files to crop, in order. -/
def files_to_crop : List String :=
  ["checked.png", "uncheck.png", "tab_normal.png", "tab_active.png"]

/-- Per-file event reported by `main`: either the file-not-found skip message
(line 71) or the outcome of `crop_transparent` on an existing file (line 69). -/
inductive MainEvent where
  | fileNotFound (filename : String)
  | processed (filename : String) (outcome : CropOutcome)
deriving DecidableEq, Repr

/-- Lines 65-71 of `main`: process each configured file in order.  The file
system is modelled by `fs`, mapping a path to the decoded image when the file
exists and to `none` otherwise.  For an existing file, `crop_transparent` is
called with padding 2 and no explicit output path (line 69); a missing file
is reported and processing continues with the next file. -/
def main_run (fs : String → Option Image) : List MainEvent :=
  files_to_crop.map fun filename =>
    let filepath := assets_dir ++ "/" ++ filename
    match fs filepath with
    | some img => .processed filename (crop_transparent filepath none 2 img)
    | none => .fileNotFound filename

/-- The rectangle exactly as the spec's four formulas in section 4.1 state it:
left = max(0, bx0 − P), top = max(0, by0 − P), right = min(W, bx1 + P),
bottom = min(H, by1 + P). -/
def specRect (W H bx0 by0 bx1 by1 P : Int) : Rect :=
  { left := max 0 (bx0 - P)
    top := max 0 (by0 - P)
    right := min W (bx1 + P)
    bottom := min H (by1 + P) }

/-- Claim C1: for every image width W, height H, bounding box (bx0, by0, bx1,
by1) and non-negative padding P, the Cropper computes exactly the rectangle
left = max(0, bx0 − P), top = max(0, by0 − P), right = min(W, bx1 + P),
bottom = min(H, by1 + P) given by the spec's four formulas. -/
theorem cropRect_eq_specRect (W H bx0 by0 bx1 by1 P : Int) (hP : 0 ≤ P) :
    cropRect W H (bx0, by0, bx1, by1) P = specRect W H bx0 by0 bx1 by1 P := by
  rfl

/-- Witness for C1 at W=7, H=5, bbox=(1,1,6,4), P=1. -/
theorem cropRect_eq_specRect_witness :
    (0 : Int) ≤ 1 ∧
      cropRect 7 5 (1, 1, 6, 4) 1 = specRect 7 5 1 1 6 4 1 :=
  ⟨by decide, cropRect_eq_specRect 7 5 1 1 6 4 1 (by decide)⟩

/-- Claim C2: for a well-formed bounding box (0 ≤ bx0 ≤ bx1 ≤ W,
0 ≤ by0 ≤ by1 ≤ H) and P ≥ 0, the output rectangle (l,t,r,b) satisfies
0 ≤ l ≤ r ≤ W, 0 ≤ t ≤ b ≤ H, l ≤ bx0, t ≤ by0, r ≥ bx1, b ≥ by1: it is
contained in the image bounds, contains the bounding box, and preserves the
left ≤ right and top ≤ bottom ordering. -/
theorem cropRect_contained (W H bx0 by0 bx1 by1 P : Int)
    (h1 : 0 ≤ bx0) (h2 : bx0 ≤ bx1) (h3 : bx1 ≤ W)
    (h4 : 0 ≤ by0) (h5 : by0 ≤ by1) (h6 : by1 ≤ H) (hP : 0 ≤ P) :
    0 ≤ (cropRect W H (bx0, by0, bx1, by1) P).left ∧
      (cropRect W H (bx0, by0, bx1, by1) P).left ≤
        (cropRect W H (bx0, by0, bx1, by1) P).right ∧
      (cropRect W H (bx0, by0, bx1, by1) P).right ≤ W ∧
      0 ≤ (cropRect W H (bx0, by0, bx1, by1) P).top ∧
      (cropRect W H (bx0, by0, bx1, by1) P).top ≤
        (cropRect W H (bx0, by0, bx1, by1) P).bottom ∧
      (cropRect W H (bx0, by0, bx1, by1) P).bottom ≤ H ∧
      (cropRect W H (bx0, by0, bx1, by1) P).left ≤ bx0 ∧
      (cropRect W H (bx0, by0, bx1, by1) P).top ≤ by0 ∧
      bx1 ≤ (cropRect W H (bx0, by0, bx1, by1) P).right ∧
      by1 ≤ (cropRect W H (bx0, by0, bx1, by1) P).bottom := by
  simp only [cropRect]
  omega

/-- Witness for C2 at W=100, H=50, bbox=(10,10,90,40), P=2. -/
theorem cropRect_contained_witness :
    ((0 : Int) ≤ 10 ∧ (10 : Int) ≤ 90 ∧ (90 : Int) ≤ 100 ∧
        (0 : Int) ≤ 10 ∧ (10 : Int) ≤ 40 ∧ (40 : Int) ≤ 50 ∧ (0 : Int) ≤ 2) ∧
      (0 ≤ (cropRect 100 50 (10, 10, 90, 40) 2).left ∧
        (cropRect 100 50 (10, 10, 90, 40) 2).left ≤
          (cropRect 100 50 (10, 10, 90, 40) 2).right ∧
        (cropRect 100 50 (10, 10, 90, 40) 2).right ≤ 100 ∧
        0 ≤ (cropRect 100 50 (10, 10, 90, 40) 2).top ∧
        (cropRect 100 50 (10, 10, 90, 40) 2).top ≤
          (cropRect 100 50 (10, 10, 90, 40) 2).bottom ∧
        (cropRect 100 50 (10, 10, 90, 40) 2).bottom ≤ 50 ∧
        (cropRect 100 50 (10, 10, 90, 40) 2).left ≤ 10 ∧
        (cropRect 100 50 (10, 10, 90, 40) 2).top ≤ 10 ∧
        90 ≤ (cropRect 100 50 (10, 10, 90, 40) 2).right ∧
        40 ≤ (cropRect 100 50 (10, 10, 90, 40) 2).bottom) :=
  ⟨by decide,
    cropRect_contained 100 50 10 10 90 40 2 (by decide) (by decide) (by decide)
      (by decide) (by decide) (by decide) (by decide)⟩

/-- Claim C3: for every image whose bounding-box finder returned the sentinel
`none` (all pixels fully transparent), `crop_transparent` reports the skip
outcome, performs no cropping and no file write, and returns without
failing. -/
theorem crop_transparent_fully_transparent (input_path : String)
    (output_path : Option String) (padding : Int) (img : Image)
    (h : img.bbox = none) :
    crop_transparent input_path output_path padding img =
        CropOutcome.skippedTransparent ∧
      writeOf (crop_transparent input_path output_path padding img) = none := by
  simp [crop_transparent, writeOf, h]

/-- Witness for C3 on a fully transparent 8×8 image. -/
theorem crop_transparent_fully_transparent_witness :
    (Image.mk 8 8 none).bbox = none ∧
      (crop_transparent "in.png" none 2 (Image.mk 8 8 none) =
          CropOutcome.skippedTransparent ∧
        writeOf (crop_transparent "in.png" none 2 (Image.mk 8 8 none)) = none) :=
  ⟨rfl, crop_transparent_fully_transparent "in.png" none 2 (Image.mk 8 8 none) rfl⟩

/-- Claim C4: for every configured file that does not exist on the modelled
file system, `main` reports a file-not-found skip event for that file and
still produces one event per configured file — a missing file never aborts
the run. -/
theorem main_run_missing_file (fs : String → Option Image) (filename : String)
    (hmem : filename ∈ files_to_crop)
    (h : fs (assets_dir ++ "/" ++ filename) = none) :
    MainEvent.fileNotFound filename ∈ main_run fs ∧
      (main_run fs).length = files_to_crop.length := by
  constructor
  · refine List.mem_map.mpr ⟨filename, hmem, ?_⟩
    simp [h]
  · simp [main_run]

/-- Witness for C4: on an empty file system, the first configured file is
reported missing and all four files still produce events. -/
theorem main_run_missing_file_witness :
    ("checked.png" ∈ files_to_crop ∧
        (fun _ : String => (none : Option Image))
            (assets_dir ++ "/" ++ "checked.png") = none) ∧
      (MainEvent.fileNotFound "checked.png" ∈
          main_run (fun _ => (none : Option Image)) ∧
        (main_run (fun _ => (none : Option Image))).length =
          files_to_crop.length) :=
  ⟨⟨by simp [files_to_crop], rfl⟩,
    main_run_missing_file (fun _ => none) "checked.png" (by simp [files_to_crop]) rfl⟩

/-- Claim C5: when the bounding box equals the full image bounds (0,0,W,H)
and padding P ≥ 0, the computed rectangle is exactly (0,0,W,H): re-running
the crop-with-padding computation on an already tightly-cropped image does
not shrink it. -/
theorem cropRect_full_bbox (W H P : Int) (hW : 0 ≤ W) (hH : 0 ≤ H) (hP : 0 ≤ P) :
    cropRect W H (0, 0, W, H) P = Rect.mk 0 0 W H := by
  simp only [cropRect, Rect.mk.injEq]
  omega

/-- Witness for C5 at W=96, H=32, P=2. -/
theorem cropRect_full_bbox_witness :
    ((0 : Int) ≤ 96 ∧ (0 : Int) ≤ 32 ∧ (0 : Int) ≤ 2) ∧
      cropRect 96 32 (0, 0, 96, 32) 2 = Rect.mk 0 0 96 32 :=
  ⟨by decide, cropRect_full_bbox 96 32 2 (by decide) (by decide) (by decide)⟩

/-- Claim C6: with padding P = 0 and a well-formed bounding box, the output
rectangle equals the input bounding box exactly. -/
theorem cropRect_zero_padding (W H bx0 by0 bx1 by1 : Int)
    (h1 : 0 ≤ bx0) (h2 : bx0 ≤ bx1) (h3 : bx1 ≤ W)
    (h4 : 0 ≤ by0) (h5 : by0 ≤ by1) (h6 : by1 ≤ H) :
    cropRect W H (bx0, by0, bx1, by1) 0 = Rect.mk bx0 by0 bx1 by1 := by
  simp only [cropRect, Rect.mk.injEq]
  omega

/-- Witness for C6 at W=100, H=50, bbox=(10,10,90,40). -/
theorem cropRect_zero_padding_witness :
    ((0 : Int) ≤ 10 ∧ (10 : Int) ≤ 90 ∧ (90 : Int) ≤ 100 ∧
        (0 : Int) ≤ 10 ∧ (10 : Int) ≤ 40 ∧ (40 : Int) ≤ 50) ∧
      cropRect 100 50 (10, 10, 90, 40) 0 = Rect.mk 10 10 90 40 :=
  ⟨by decide,
    cropRect_zero_padding 100 50 10 10 90 40 (by decide) (by decide) (by decide)
      (by decide) (by decide) (by decide)⟩

/-- Claim C7: a bounding box touching the left edge (bx0 = 0) with padding
P > 0 yields left = 0: the subtraction is clamped and no negative offset is
produced. -/
theorem cropRect_left_edge (W H by0 bx1 by1 P : Int) (hP : 0 < P) :
    (cropRect W H (0, by0, bx1, by1) P).left = 0 := by
  simp only [cropRect]
  omega

/-- Witness for C7 at W=100, H=50, bbox=(0,10,90,40), P=2. -/
theorem cropRect_left_edge_witness :
    (0 : Int) < 2 ∧ (cropRect 100 50 (0, 10, 90, 40) 2).left = 0 :=
  ⟨by decide, cropRect_left_edge 100 50 10 90 40 2 (by decide)⟩

/-- Claim C8: concrete scenarios — W=100, H=50, bbox=(10,10,90,40), P=2
gives (8,8,92,42); and W=100, H=50, bbox=(0,0,100,50), P=2 gives the fully
clamped (0,0,100,50). -/
theorem cropRect_scenarios :
    cropRect 100 50 (10, 10, 90, 40) 2 = Rect.mk 8 8 92 42 ∧
      cropRect 100 50 (0, 0, 100, 50) 2 = Rect.mk 0 0 100 50 := by
  decide

/-- Claim C9: the rectangle computation is monotone in the padding: for a
well-formed bounding box and 0 ≤ P1 ≤ P2, the rectangle for P1 is contained
in the rectangle for P2 (left and top non-increasing in P, right and bottom
non-decreasing in P). -/
theorem cropRect_monotone_padding (W H bx0 by0 bx1 by1 P1 P2 : Int)
    (h1 : 0 ≤ bx0) (h2 : bx0 ≤ bx1) (h3 : bx1 ≤ W)
    (h4 : 0 ≤ by0) (h5 : by0 ≤ by1) (h6 : by1 ≤ H)
    (hP1 : 0 ≤ P1) (hP12 : P1 ≤ P2) :
    (cropRect W H (bx0, by0, bx1, by1) P2).left ≤
        (cropRect W H (bx0, by0, bx1, by1) P1).left ∧
      (cropRect W H (bx0, by0, bx1, by1) P2).top ≤
        (cropRect W H (bx0, by0, bx1, by1) P1).top ∧
      (cropRect W H (bx0, by0, bx1, by1) P1).right ≤
        (cropRect W H (bx0, by0, bx1, by1) P2).right ∧
      (cropRect W H (bx0, by0, bx1, by1) P1).bottom ≤
        (cropRect W H (bx0, by0, bx1, by1) P2).bottom := by
  simp only [cropRect]
  omega

/-- Witness for C9 at W=100, H=50, bbox=(10,10,90,40), P1=1, P2=3. -/
theorem cropRect_monotone_padding_witness :
    ((0 : Int) ≤ 10 ∧ (10 : Int) ≤ 90 ∧ (90 : Int) ≤ 100 ∧
        (0 : Int) ≤ 10 ∧ (10 : Int) ≤ 40 ∧ (40 : Int) ≤ 50 ∧
        (0 : Int) ≤ 1 ∧ (1 : Int) ≤ 3) ∧
      ((cropRect 100 50 (10, 10, 90, 40) 3).left ≤
          (cropRect 100 50 (10, 10, 90, 40) 1).left ∧
        (cropRect 100 50 (10, 10, 90, 40) 3).top ≤
          (cropRect 100 50 (10, 10, 90, 40) 1).top ∧
        (cropRect 100 50 (10, 10, 90, 40) 1).right ≤
          (cropRect 100 50 (10, 10, 90, 40) 3).right ∧
        (cropRect 100 50 (10, 10, 90, 40) 1).bottom ≤
          (cropRect 100 50 (10, 10, 90, 40) 3).bottom) :=
  ⟨by decide,
    cropRect_monotone_padding 100 50 10 10 90 40 1 3 (by decide) (by decide)
      (by decide) (by decide) (by decide) (by decide) (by decide) (by decide)⟩

/-- Claim C10: `main` processes exactly the four files checked.png,
uncheck.png, tab_normal.png, tab_active.png in that order; each existing
file is passed to `crop_transparent` with padding exactly 2 and no explicit
output path, so the output path defaults to the input path and the file is
overwritten in place. -/
theorem main_run_structure (fs : String → Option Image) (p : String)
    (img : Image) (bbox : Int × Int × Int × Int) (hb : img.bbox = some bbox) :
    files_to_crop = ["checked.png", "uncheck.png", "tab_normal.png", "tab_active.png"] ∧
      main_run fs = files_to_crop.map (fun filename =>
        match fs (assets_dir ++ "/" ++ filename) with
        | some img =>
            MainEvent.processed filename
              (crop_transparent (assets_dir ++ "/" ++ filename) none 2 img)
        | none => MainEvent.fileNotFound filename) ∧
      crop_transparent p none 2 img =
        CropOutcome.cropped p (cropRect img.width img.height bbox 2) := by
  refine ⟨rfl, rfl, ?_⟩
  simp [crop_transparent, hb]

/-- Witness for C10 on a 100×50 image with bbox (10,10,90,40). -/
theorem main_run_structure_witness :
    (Image.mk 100 50 (some (10, 10, 90, 40))).bbox = some (10, 10, 90, 40) ∧
      (files_to_crop =
          ["checked.png", "uncheck.png", "tab_normal.png", "tab_active.png"] ∧
        main_run (fun _ => (none : Option Image)) =
          files_to_crop.map (fun filename =>
            match (fun _ : String => (none : Option Image))
                (assets_dir ++ "/" ++ filename) with
            | some img =>
                MainEvent.processed filename
                  (crop_transparent (assets_dir ++ "/" ++ filename) none 2 img)
            | none => MainEvent.fileNotFound filename) ∧
        crop_transparent "checked.png" none 2
            (Image.mk 100 50 (some (10, 10, 90, 40))) =
          CropOutcome.cropped "checked.png"
            (cropRect (Image.mk 100 50 (some (10, 10, 90, 40))).width
              (Image.mk 100 50 (some (10, 10, 90, 40))).height (10, 10, 90, 40) 2)) :=
  ⟨rfl,
    main_run_structure (fun _ => none) "checked.png"
      (Image.mk 100 50 (some (10, 10, 90, 40))) (10, 10, 90, 40) rfl⟩

end CropAssets
